import Mathlib

/-!
Verification of the gallery UI component in src/src/components/Gallery.tsx.

The component is embedded shallowly: its five state hooks become the fields
of GalleryState, each handler becomes a pure state transformer, the single
fetch effect becomes a function from a fetch outcome to a state transformer,
and the JSX tree becomes a pure render function into a small view datatype.
JavaScript runtime values that matter to the claims are modelled explicitly:
a field that may be absent or null is an Option, JavaScript truthiness of a
string-or-nullish value is the test for a present non-empty string, and an
expression that can throw at runtime is given Option type, with none for
the thrown case.
-/

namespace Zymome

/-- One record of the JSON array served by the gallery endpoint
(interface GalleryImage, Gallery.tsx lines 7-15).  The endpoint data is
never validated, so every field except the render key is modelled as
possibly absent; a present empty string and an absent field are both
falsy to the JavaScript truthiness tests in the component. -/
structure GalleryImage where
  id : String
  src : Option String
  alt : Option String
  title : Option String
  thumbnail : Option String
  createdTime : Option String
  takenDate : Option String
deriving Repr, DecidableEq

/-- The five state hooks of the component (Gallery.tsx lines 18-22):
images, selectedImage, selectedImageIndex, loading, error. -/
structure GalleryState where
  images : List GalleryImage
  selectedImage : Option String
  selectedImageIndex : Option Nat
  loading : Bool
  error : Option String
deriving Repr, DecidableEq

/-- The initial hook values (Gallery.tsx lines 18-22): empty list, null
selection, loading true, no error. -/
def initialState : GalleryState :=
  { images := [], selectedImage := none, selectedImageIndex := none,
    loading := true, error := none }

/-- JavaScript truthiness of a string value: false for the empty string. -/
def truthyStr (s : String) : Bool :=
  if s = "" then false else true

/-- JavaScript truthiness of a string-or-nullish value: null, undefined and
the empty string are falsy. -/
def truthyOpt : Option String → Bool
  | none => false
  | some s => truthyStr s

/-- The JavaScript expression x || d for a string-or-nullish x: the value
of x when truthy, otherwise the default d. -/
def jsOrStr (x : Option String) (d : String) : String :=
  match x with
  | none => d
  | some s => if s = "" then d else s

/-- A JavaScript value thrown inside the fetch try block: either an Error
instance carrying a message, or any other value. -/
inductive ThrownValue where
  | errorInstance (message : String)
  | nonError
deriving Repr, DecidableEq

/-- The catch clause of fetchImages (Gallery.tsx line 47): an Error
instance surfaces its own message, anything else the fixed fallback. -/
def errMessage : ThrownValue → String
  | .errorInstance m => m
  | .nonError => "Failed to load gallery images"

/-- Response.ok of the WHATWG fetch API: status in the range 200-299. -/
def responseOk (status : Nat) : Bool :=
  decide (200 ≤ status) && decide (status ≤ 299)

/-- How the awaited fetch of /api/gallery can go (Gallery.tsx lines 28-34):
the promise rejects with a thrown value, or it resolves to a response with
a status and status text whose json() call then either rejects or yields
the parsed array. -/
inductive FetchOutcome where
  | rejected (e : ThrownValue)
  | resolved (status : Nat) (statusText : String)
      (jsonResult : Except ThrownValue (List GalleryImage))
deriving Repr

/-- The net state update performed by fetchImages (Gallery.tsx lines 25-52)
once the fetch settles with the given outcome.  setLoading(true) at entry
and setLoading(false) in the finally block leave loading false; a non-ok
response throws an Error whose message interpolates the status and status
text, caught below with every other thrown value by the catch clause,
which stores the message computed by errMessage; a successful parse stores
the array verbatim.  The error field is never cleared on success, exactly
as in the source. -/
def fetchImagesRun (o : FetchOutcome) (s : GalleryState) : GalleryState :=
  match o with
  | .rejected e =>
      { s with loading := false, error := some (errMessage e) }
  | .resolved status statusText jsonResult =>
      if responseOk status = false then
        let msg := "Failed to fetch images: " ++ toString status ++ " " ++ statusText
        { s with loading := false, error := some msg }
      else
        match jsonResult with
        | .error e => { s with loading := false, error := some (errMessage e) }
        | .ok data => { s with loading := false, images := data }

/-- The openImage callback (Gallery.tsx lines 57-60): store the given src
string and index. -/
def openImage (src : String) (index : Nat) (s : GalleryState) : GalleryState :=
  { s with selectedImage := some src, selectedImageIndex := some index }

/-- The closeImage callback (Gallery.tsx lines 62-65): null out both
selection fields. -/
def closeImage (s : GalleryState) : GalleryState :=
  { s with selectedImage := none, selectedImageIndex := none }

/-- Navigation direction, the prev | next argument of navigateImage. -/
inductive Direction where
  | prev
  | next
deriving Repr, DecidableEq

/-- The newIndex computation of navigateImage (Gallery.tsx lines 70-75):
prev moves to i-1 unless i is 0, where it wraps to length-1; next moves to
i+1 unless i is the last index, where it wraps to 0. -/
def idxStep (direction : Direction) (n i : Nat) : Nat :=
  match direction with
  | .prev => if 0 < i then i - 1 else n - 1
  | .next => if i < n - 1 then i + 1 else 0

/-- The navigateImage callback (Gallery.tsx lines 67-79).  It returns
early when no index is selected or the list is empty; otherwise it reads
the record at the computed newIndex and stores its src field together with
newIndex.  The indexing expression images[newIndex].src throws when
newIndex is out of bounds, modelled by the none result; the src field is
stored as-is, without the || fallback used elsewhere. -/
def navigateImage (direction : Direction) (s : GalleryState) :
    Option GalleryState :=
  match s.selectedImageIndex with
  | none => some s
  | some i =>
      if s.images.length = 0 then some s
      else
        let newIndex := idxStep direction s.images.length i
        match s.images.get? newIndex with
        | none => none
        | some img =>
            some { s with selectedImage := img.src, selectedImageIndex := some newIndex }

/-- navigateImage iterated k times, propagating a thrown exception. -/
def navigateN (direction : Direction) : Nat → GalleryState → Option GalleryState
  | 0, s => some s
  | k + 1, s => (navigateImage direction s).bind (navigateN direction k)

/-- The window keydown handler (Gallery.tsx lines 83-93): return early
unless selectedImage is truthy, then dispatch Escape, ArrowLeft and
ArrowRight to the three callbacks and ignore every other key. -/
def handleKeyDown (key : String) (s : GalleryState) : Option GalleryState :=
  if truthyOpt s.selectedImage = false then some s
  else if key = "Escape" then some (closeImage s)
  else if key = "ArrowLeft" then navigateImage .prev s
  else if key = "ArrowRight" then navigateImage .next s
  else some s

/-- The formatDate helper (Gallery.tsx lines 100-108): empty for a falsy
argument, otherwise the locale rendering of the parsed date.  The
locale-and-Date-dependent part is kept as the function parameter
localeFormat; only the falsy guard is the component's own logic. -/
def formatDate (localeFormat : String → String) (dateString : Option String) :
    String :=
  match dateString with
  | none => ""
  | some ds => if ds = "" then "" else localeFormat ds

/-- The date line rendered under a tile or in the lightbox: a Taken label,
an Uploaded label, or nothing. -/
inductive DateLabel where
  | taken (formatted : String)
  | uploaded (formatted : String)
  | noLabel
deriving Repr, DecidableEq

/-- The conditional date rendering used in the tile overlay (Gallery.tsx
lines 210-218) and, with the same shape, in the lightbox info bar (lines
305-313): a truthy takenDate wins and is prefixed Taken, else a truthy
createdTime is prefixed Uploaded, else no date line. -/
def dateLabel (localeFormat : String → String)
    (takenDate createdTime : Option String) : DateLabel :=
  if truthyOpt takenDate then .taken (formatDate localeFormat takenDate)
  else if truthyOpt createdTime then
    .uploaded (formatDate localeFormat createdTime)
  else .noLabel

/-- The visible text of a date line, with its fixed Taken or Uploaded
label word. -/
def dateLineText : DateLabel → Option String
  | .taken f => some ("Taken " ++ f)
  | .uploaded f => some ("Uploaded " ++ f)
  | .noLabel => none

/-- One rendered grid tile (Gallery.tsx lines 179-222): render key, image
src and alt with their || fallbacks, the title shown only when truthy, the
date line, and the arguments the click handler passes to openImage. -/
structure Tile where
  key : String
  imageSrc : String
  imageAlt : String
  titleLine : Option String
  dateLine : DateLabel
  clickSrc : String
  clickIndex : Nat
deriving Repr, DecidableEq

/-- Rendering of the tile at a given position (Gallery.tsx lines 179-222).
The image src is the source expression img.src || img.src || the empty
string; the click handler passes img.src || the empty string and the
position. -/
def renderTile (localeFormat : String → String) (index : Nat)
    (img : GalleryImage) : Tile :=
  { key := img.id
  , imageSrc := jsOrStr img.src (jsOrStr img.src "")
  , imageAlt := jsOrStr img.alt "Gallery image"
  , titleLine := if truthyOpt img.title then img.title else none
  , dateLine := dateLabel localeFormat img.takenDate img.createdTime
  , clickSrc := jsOrStr img.src ""
  , clickIndex := index }

/-- The fullscreen lightbox overlay (Gallery.tsx lines 227-314): the
enlarged image src, the position counter text, and the date line of the
selected record. -/
structure Overlay where
  imageSrc : String
  counter : String
  dateLine : DateLabel
deriving Repr, DecidableEq

/-- Rendering of the overlay for selected src, selected index i, list
length n and selected record img: the counter interpolates i+1 and n
around a slash (Gallery.tsx line 302), the date line follows the same
takenDate-over-createdTime conditional as a tile (lines 305-313). -/
def renderOverlay (localeFormat : String → String) (src : String)
    (i n : Nat) (img : GalleryImage) : Overlay :=
  { imageSrc := src
  , counter := toString (i + 1) ++ " / " ++ toString n
  , dateLine := dateLabel localeFormat img.takenDate img.createdTime }

/-- The four mutually exclusive shapes of the rendered component
(Gallery.tsx lines 110-320): the loading spinner, the error panel with
its message, the empty-state panel with its fixed heading and body, or
the tile grid together with the optional lightbox overlay. -/
inductive GalleryView where
  | loadingView
  | errorView (message : String)
  | emptyView (heading : String) (body : String)
  | gridView (tiles : List Tile) (overlay : Option Overlay)
deriving Repr, DecidableEq

/-- The overlay conditional inside the grid branch (Gallery.tsx line 227):
the overlay renders only when selectedImage is truthy and
selectedImageIndex is not null; reading the selected record at line 305
throws when the index is out of bounds, modelled by the outer none. -/
def renderOverlayOpt (localeFormat : String → String) (s : GalleryState) :
    Option (Option Overlay) :=
  match s.selectedImage, s.selectedImageIndex with
  | some src, some i =>
      if src = "" then some none
      else
        match s.images.get? i with
        | some img =>
            some (some (renderOverlay localeFormat src i s.images.length img))
        | none => none
  | _, _ => some none

/-- The render body of the component (Gallery.tsx lines 110-320), in the
source order of its early returns: the spinner while loading, the error
panel when error is truthy, the empty-state panel with its literal
heading and body when the list is empty, otherwise the tile grid and the
conditional overlay.  The outer Option is none exactly when rendering
would throw. -/
def render (localeFormat : String → String) (s : GalleryState) :
    Option GalleryView :=
  if s.loading then some .loadingView
  else if truthyOpt s.error then some (.errorView (s.error.getD ""))
  else if s.images.length = 0 then
    some (.emptyView "No Images Found"
      "There are no images available in the gallery. Please check your Google Drive folder.")
  else
    (renderOverlayOpt localeFormat s).map fun overlay =>
      .gridView (s.images.enum.map fun p => renderTile localeFormat p.1 p.2)
        overlay

/-- The tiles of a rendered view: only the grid branch has any. -/
def tilesOf : GalleryView → List Tile
  | .gridView tiles _ => tiles
  | _ => []

/-- The overlay of a rendered view: only the grid branch can have one. -/
def overlayOf : GalleryView → Option Overlay
  | .gridView _ overlay => overlay
  | _ => none

/-- The lightbox is effectively open exactly when the overlay conditional
of Gallery.tsx line 227 holds: selectedImage truthy and
selectedImageIndex not null. -/
def lightboxOpen (s : GalleryState) : Bool :=
  truthyOpt s.selectedImage && s.selectedImageIndex.isSome

/-! ## Events and reachable states

The user-interface events the component can receive, with the guards the
rendered markup imposes on them: the fetch settles only while it is in
flight (loading is true from mount until the finally block runs, and the
effect runs once); a tile can be clicked only when the grid branch is the
one rendered, so only at a position that holds a record; the lightbox
buttons exist only while the overlay is rendered; the window keydown
listener fires on any key at any time. -/

inductive Step : GalleryState → GalleryState → Prop where
  | fetchResolves (s : GalleryState) (o : FetchOutcome) :
      s.loading = true → Step s (fetchImagesRun o s)
  | clickTile (s : GalleryState) (i : Nat) (img : GalleryImage) :
      s.loading = false → truthyOpt s.error = false →
      s.images.get? i = some img →
      Step s (openImage (jsOrStr img.src "") i s)
  | keydownEvent (s s' : GalleryState) (key : String) :
      handleKeyDown key s = some s' → Step s s'
  | clickNavButton (s s' : GalleryState) (d : Direction) :
      lightboxOpen s = true → navigateImage d s = some s' → Step s s'
  | clickCloseOrBackdrop (s : GalleryState) :
      lightboxOpen s = true → Step s (closeImage s)

/-- States the mounted component can actually be in. -/
inductive Reachable : GalleryState → Prop where
  | init : Reachable initialState
  | step (s s' : GalleryState) : Reachable s → Step s s' → Reachable s'

/-- The state invariant: while the fetch is in flight nothing is selected,
a selected index always points into the loaded list, and a truthy selected
src implies a selected index. -/
def Inv (s : GalleryState) : Prop :=
  (s.loading = true → s.selectedImage = none ∧ s.selectedImageIndex = none)
  ∧ (∀ i, s.selectedImageIndex = some i → i < s.images.length)
  ∧ (truthyOpt s.selectedImage = true → s.selectedImageIndex.isSome = true)

/-! ## Helper lemmas -/

theorem fetchImagesRun_loading (o : FetchOutcome) (s : GalleryState) :
    (fetchImagesRun o s).loading = false := by
  cases o with
  | rejected e => rfl
  | resolved status statusText jsonResult =>
      simp only [fetchImagesRun]
      split
      · rfl
      · cases jsonResult <;> rfl

theorem fetchImagesRun_selectedImage (o : FetchOutcome) (s : GalleryState) :
    (fetchImagesRun o s).selectedImage = s.selectedImage := by
  cases o with
  | rejected e => rfl
  | resolved status statusText jsonResult =>
      simp only [fetchImagesRun]
      split
      · rfl
      · cases jsonResult <;> rfl

theorem fetchImagesRun_selectedImageIndex (o : FetchOutcome) (s : GalleryState) :
    (fetchImagesRun o s).selectedImageIndex = s.selectedImageIndex := by
  cases o with
  | rejected e => rfl
  | resolved status statusText jsonResult =>
      simp only [fetchImagesRun]
      split
      · rfl
      · cases jsonResult <;> rfl

theorem idxStep_lt (d : Direction) (n i : Nat) (hn : 0 < n) (hi : i < n) :
    idxStep d n i < n := by
  cases d <;> simp only [idxStep] <;> split <;> omega

theorem truthyOpt_eq_true {x : Option String} (h : ¬ truthyOpt x = false) :
    truthyOpt x = true := by
  cases hx : truthyOpt x
  · exact absurd hx h
  · rfl

theorem navigateImage_eq (d : Direction) (s : GalleryState) (i : Nat)
    (hidx : s.selectedImageIndex = some i) (hpos : 0 < s.images.length)
    (hi : i < s.images.length) :
    ∃ img, s.images.get? (idxStep d s.images.length i) = some img ∧
      navigateImage d s =
        some { s with selectedImage := img.src,
                      selectedImageIndex := some (idxStep d s.images.length i) } := by
  have hlt : idxStep d s.images.length i < s.images.length :=
    idxStep_lt d _ i hpos hi
  refine ⟨s.images.get ⟨_, hlt⟩, List.get?_eq_get hlt, ?_⟩
  simp only [navigateImage, hidx]
  rw [if_neg (by omega)]
  simp only [List.get?_eq_get hlt]

theorem inv_initial : Inv initialState := by
  refine ⟨fun _ => ⟨rfl, rfl⟩, ?_, ?_⟩
  · intro i h; simp [initialState] at h
  · intro h; simp [initialState, truthyOpt] at h

theorem inv_close (s : GalleryState) : Inv (closeImage s) := by
  refine ⟨fun _ => ⟨rfl, rfl⟩, ?_, ?_⟩
  · intro i h; simp [closeImage] at h
  · intro h; simp [closeImage, truthyOpt] at h

theorem inv_open (s : GalleryState) (src : String) (i : Nat)
    (img : GalleryImage) (hl : s.loading = false)
    (hg : s.images.get? i = some img) : Inv (openImage src i s) := by
  refine ⟨?_, ?_, ?_⟩
  · intro h
    rw [show (openImage src i s).loading = s.loading from rfl] at h
    rw [hl] at h; cases h
  · intro j hj
    rw [show (openImage src i s).selectedImageIndex = some i from rfl] at hj
    injection hj with hji
    subst hji
    rcases List.get?_eq_some.mp hg with ⟨h', _⟩
    exact h'
  · intro _; rfl

theorem inv_fetch (s : GalleryState) (o : FetchOutcome) (hinv : Inv s)
    (hl : s.loading = true) : Inv (fetchImagesRun o s) := by
  obtain ⟨h1, _, _⟩ := hinv
  obtain ⟨hsel, hidx⟩ := h1 hl
  refine ⟨?_, ?_, ?_⟩
  · intro h; rw [fetchImagesRun_loading] at h; cases h
  · intro i hi
    rw [fetchImagesRun_selectedImageIndex, hidx] at hi
    cases hi
  · intro h
    rw [fetchImagesRun_selectedImage, hsel] at h
    simp [truthyOpt] at h

theorem inv_navigate (s s' : GalleryState) (d : Direction) (hinv : Inv s)
    (hnav : navigateImage d s = some s') : Inv s' := by
  obtain ⟨h1, h2, h3⟩ := hinv
  cases hidx : s.selectedImageIndex with
  | none =>
      simp only [navigateImage, hidx] at hnav
      injection hnav with h
      subst h
      exact ⟨h1, h2, h3⟩
  | some i =>
      by_cases hz : s.images.length = 0
      · simp only [navigateImage, hidx, if_pos hz] at hnav
        injection hnav with h
        subst h
        exact absurd (h2 i hidx) (by omega)
      · have hpos : 0 < s.images.length := by omega
        obtain ⟨img, _, heq⟩ := navigateImage_eq d s i hidx hpos (h2 i hidx)
        rw [heq] at hnav
        injection hnav with h
        subst h
        refine ⟨?_, ?_, ?_⟩
        · intro h
          obtain ⟨_, hni⟩ := h1 h
          rw [hidx] at hni; cases hni
        · intro j hj
          injection hj with hji
          subst hji
          exact idxStep_lt d _ i hpos (h2 i hidx)
        · intro _; rfl

theorem inv_keydown (s s' : GalleryState) (key : String) (hinv : Inv s)
    (hk : handleKeyDown key s = some s') : Inv s' := by
  unfold handleKeyDown at hk
  by_cases ht : truthyOpt s.selectedImage = false
  · rw [if_pos ht] at hk
    injection hk with h; subst h; exact hinv
  · rw [if_neg ht] at hk
    by_cases h1 : key = "Escape"
    · rw [if_pos h1] at hk
      injection hk with h; subst h; exact inv_close s
    · rw [if_neg h1] at hk
      by_cases h2 : key = "ArrowLeft"
      · rw [if_pos h2] at hk
        exact inv_navigate s s' .prev hinv hk
      · rw [if_neg h2] at hk
        by_cases h3 : key = "ArrowRight"
        · rw [if_pos h3] at hk
          exact inv_navigate s s' .next hinv hk
        · rw [if_neg h3] at hk
          injection hk with h; subst h; exact hinv

theorem inv_step (s s' : GalleryState) (hinv : Inv s) (hst : Step s s') :
    Inv s' :=
  match hst with
  | .fetchResolves _ o hl => inv_fetch s o hinv hl
  | .clickTile _ i img hl _ hg => inv_open s _ i img hl hg
  | .keydownEvent _ s2 key hk => inv_keydown s s2 key hinv hk
  | .clickNavButton _ s2 d _ hnav => inv_navigate s s2 d hinv hnav
  | .clickCloseOrBackdrop _ _ => inv_close s

theorem reachable_inv (s : GalleryState) (h : Reachable s) : Inv s := by
  induction h with
  | init => exact inv_initial
  | step s s' _ hst ih => exact inv_step s s' ih hst

/-- The additive form of one navigation step on indices: adding 1 for
next and n-1 for prev, modulo n. -/
def dirC (d : Direction) (n : Nat) : Nat :=
  match d with
  | .prev => n - 1
  | .next => 1

theorem idxStep_eq_mod (d : Direction) (n i : Nat) (hpos : 0 < n)
    (hi : i < n) : idxStep d n i = (i + dirC d n) % n := by
  cases d with
  | prev =>
      simp only [idxStep, dirC]
      by_cases h0 : 0 < i
      · rw [if_pos h0]
        have he : i + (n - 1) = (i - 1) + n := by omega
        rw [he, Nat.add_mod_right, Nat.mod_eq_of_lt (by omega)]
      · rw [if_neg h0]
        have he : i = 0 := by omega
        subst he
        rw [Nat.zero_add, Nat.mod_eq_of_lt (by omega)]
  | next =>
      simp only [idxStep, dirC]
      by_cases h0 : i < n - 1
      · rw [if_pos h0, Nat.mod_eq_of_lt (by omega)]
      · rw [if_neg h0]
        have he : i + 1 = n := by omega
        rw [he, Nat.mod_self]

theorem navigateN_reaches (d : Direction) (n : Nat) (hpos : 0 < n) :
    ∀ (k : Nat) (s : GalleryState) (i : Nat), s.images.length = n →
      s.selectedImageIndex = some i → i < n →
      ∃ s2, navigateN d k s = some s2 ∧ s2.images = s.images ∧
        s2.selectedImageIndex = some ((i + k * dirC d n) % n) := by
  intro k
  induction k with
  | zero =>
      intro s i hn hidx hi
      refine ⟨s, rfl, rfl, ?_⟩
      rw [hidx, Nat.zero_mul, Nat.add_zero, Nat.mod_eq_of_lt hi]
  | succ k ih =>
      intro s i hn hidx hi
      obtain ⟨img, _, heq⟩ :=
        navigateImage_eq d s i hidx (by omega) (by omega)
      set s1 : GalleryState :=
        { s with selectedImage := img.src,
                 selectedImageIndex := some (idxStep d s.images.length i) }
        with hs1
      have hs1images : s1.images = s.images := rfl
      have hs1n : s1.images.length = n := by rw [hs1images, hn]
      have hstep : idxStep d s.images.length i = (i + dirC d n) % n := by
        rw [hn]; exact idxStep_eq_mod d n i hpos hi
      have hs1idx : s1.selectedImageIndex = some ((i + dirC d n) % n) := by
        rw [hs1]
        exact congrArg some hstep
      have hlt : (i + dirC d n) % n < n := Nat.mod_lt _ hpos
      obtain ⟨s2, h1, h2, h3⟩ := ih s1 ((i + dirC d n) % n) hs1n hs1idx hlt
      refine ⟨s2, ?_, by rw [h2, hs1images], ?_⟩
      · show (navigateImage d s).bind (navigateN d k) = some s2
        rw [heq, Option.some_bind]
        exact h1
      · rw [h3, Nat.mod_add_mod]
        have he : i + dirC d n + k * dirC d n = i + (k + 1) * dirC d n := by
          rw [Nat.succ_mul]; omega
        rw [he]

theorem string_ne_empty_of_append (a b c d : String)
    (hlen : 0 < a.length) : a ++ b ++ c ++ d ≠ "" := by
  intro h
  have hl := congrArg String.length h
  rw [String.length_append, String.length_append, String.length_append] at hl
  have h0 : ("" : String).length = 0 := rfl
  rw [h0] at hl
  omega

/-! ## Lifecycle model for teardown

The mount effect (Gallery.tsx lines 24-55) starts the fetch and returns
no cleanup function, and the fetch continuation calls the state setters
with no abort signal and no mounted guard.  The lifecycle model makes
both facts explicit: unmounting only drops the mounted flag, leaving the
in-flight fetch pending, and a later resolution still applies
fetchImagesRun to the component state whether or not the component is
still mounted. -/

structure Lifecycle where
  st : GalleryState
  mounted : Bool
  fetchPending : Bool
deriving Repr, DecidableEq

inductive LifeEvent where
  | unmount
  | resolve (o : FetchOutcome)

/-- Lifecycle transition.  The unmount branch runs no cleanup because the
effect body returns none: the component state and the pending fetch are
untouched.  The resolve branch runs the continuation of Gallery.tsx lines
30-51, which updates state unconditionally; the mounted flag is not
consulted because the source never checks it. -/
def lifeStep : LifeEvent → Lifecycle → Lifecycle
  | .unmount, l => { l with mounted := false }
  | .resolve o, l =>
      if l.fetchPending then
        { l with st := fetchImagesRun o l.st, fetchPending := false }
      else l

/-! ## Concrete records and states used by the witnesses -/

def imgA : GalleryImage :=
  { id := "a", src := some "imageA.jpg", alt := some "A", title := some "Alpha",
    thumbnail := none, createdTime := some "2024-01-01T00:00:00Z",
    takenDate := none }

def imgB : GalleryImage :=
  { id := "b", src := some "imageB.jpg", alt := some "B", title := none,
    thumbnail := none, createdTime := some "2024-02-01T00:00:00Z",
    takenDate := some "2023-12-31T00:00:00Z" }

def imgC : GalleryImage :=
  { id := "c", src := some "imageC.jpg", alt := none, title := none,
    thumbnail := none, createdTime := none, takenDate := none }

def imgNoSrc : GalleryImage :=
  { id := "d", src := none, alt := none, title := none,
    thumbnail := none, createdTime := none, takenDate := none }

/-- The state after the endpoint returned the three records A, B, C. -/
def sLoaded : GalleryState :=
  fetchImagesRun (.resolved 200 "OK" (.ok [imgA, imgB, imgC])) initialState

/-- The state after clicking the second tile of sLoaded. -/
def sOpenB : GalleryState := openImage (jsOrStr imgB.src "") 1 sLoaded

/-- The state after the endpoint returned a record without src. -/
def sLoadedNoSrc : GalleryState :=
  fetchImagesRun (.resolved 200 "OK" (.ok [imgA, imgNoSrc])) initialState

/-- The state after the endpoint returned the empty array. -/
def sEmpty : GalleryState :=
  fetchImagesRun (.resolved 200 "OK" (.ok [])) initialState

theorem reach_sLoaded : Reachable sLoaded :=
  Reachable.step _ _ Reachable.init (Step.fetchResolves initialState _ rfl)

theorem reach_sOpenB : Reachable sOpenB :=
  Reachable.step _ _ reach_sLoaded
    (Step.clickTile sLoaded 1 imgB rfl rfl (by decide))

/-! ## Claims -/

/-- C1: for a loaded list of length n with 0 < n and a selected index i
with i < n, navigateImage prev moves to i-1 when i is positive and wraps
to n-1 at 0, navigateImage next moves to i+1 below n-1 and wraps to 0 at
n-1, and n applications of either direction return to the start index. -/
theorem navigate_wraparound_cycle (s : GalleryState) (i n : Nat)
    (hn : s.images.length = n) (hpos : 0 < n)
    (hidx : s.selectedImageIndex = some i) (hi : i < n) :
    (∃ s1, navigateImage .prev s = some s1 ∧
        s1.selectedImageIndex = some (if i = 0 then n - 1 else i - 1))
    ∧ (∃ s2, navigateImage .next s = some s2 ∧
        s2.selectedImageIndex = some (if i = n - 1 then 0 else i + 1))
    ∧ (∃ s3, navigateN .prev n s = some s3 ∧ s3.selectedImageIndex = some i)
    ∧ (∃ s4, navigateN .next n s = some s4 ∧ s4.selectedImageIndex = some i) := by
  subst hn
  refine ⟨?_, ?_, ?_, ?_⟩
  · obtain ⟨img, _, heq⟩ := navigateImage_eq .prev s i hidx hpos hi
    refine ⟨_, heq, ?_⟩
    show some (idxStep .prev s.images.length i) = _
    simp only [idxStep]
    by_cases h0 : i = 0
    · rw [if_neg (by omega), if_pos h0]
    · rw [if_pos (by omega), if_neg h0]
  · obtain ⟨img, _, heq⟩ := navigateImage_eq .next s i hidx hpos hi
    refine ⟨_, heq, ?_⟩
    show some (idxStep .next s.images.length i) = _
    simp only [idxStep]
    by_cases h0 : i = s.images.length - 1
    · rw [if_neg (by omega), if_pos h0]
    · rw [if_pos (by omega), if_neg h0]
  · obtain ⟨s3, h1, _, h3⟩ :=
      navigateN_reaches .prev s.images.length hpos s.images.length s i rfl hidx hi
    refine ⟨s3, h1, ?_⟩
    rw [h3]
    show some ((i + s.images.length * (s.images.length - 1)) % s.images.length) = _
    rw [Nat.add_mul_mod_self_left, Nat.mod_eq_of_lt hi]
  · obtain ⟨s4, h1, _, h3⟩ :=
      navigateN_reaches .next s.images.length hpos s.images.length s i rfl hidx hi
    refine ⟨s4, h1, ?_⟩
    rw [h3]
    show some ((i + s.images.length * 1) % s.images.length) = _
    rw [Nat.mul_one, Nat.add_mod_right, Nat.mod_eq_of_lt hi]

/-- Witness for C1 at the reachable state with records A, B, C and
selected index 1. -/
theorem navigate_wraparound_cycle_witness :
    (∃ s1, navigateImage .prev sOpenB = some s1 ∧
        s1.selectedImageIndex = some 0)
    ∧ (∃ s2, navigateImage .next sOpenB = some s2 ∧
        s2.selectedImageIndex = some 2)
    ∧ (∃ s3, navigateN .prev 3 sOpenB = some s3 ∧
        s3.selectedImageIndex = some 1)
    ∧ (∃ s4, navigateN .next 3 sOpenB = some s4 ∧
        s4.selectedImageIndex = some 1) :=
  navigate_wraparound_cycle sOpenB 1 3 (by decide) (by decide) (by decide)
    (by decide)

/-- C5: in every reachable state, a selected index is a valid index of the
loaded list, an empty loaded list forces no selection (the lightbox cannot
be open), and navigateImage never throws when the list is non-empty. -/
theorem lightbox_state_invariant (s : GalleryState) (h : Reachable s) :
    (∀ i, s.selectedImageIndex = some i → i < s.images.length)
    ∧ (s.images = [] → s.selectedImageIndex = none)
    ∧ (1 ≤ s.images.length →
        ∀ d : Direction, (navigateImage d s).isSome = true) := by
  obtain ⟨hload, hbound, htruthy⟩ := reachable_inv s h
  refine ⟨hbound, ?_, ?_⟩
  · intro he
    cases hidx : s.selectedImageIndex with
    | none => rfl
    | some i =>
        have hb := hbound i hidx
        rw [he] at hb
        simp at hb
  · intro hn1 d
    cases hidx : s.selectedImageIndex with
    | none => simp [navigateImage, hidx]
    | some i =>
        obtain ⟨img, _, heq⟩ :=
          navigateImage_eq d s i hidx (by omega) (hbound i hidx)
        rw [heq]
        rfl

/-- Witness for C5 at the reachable state with records A, B, C and
selected index 1. -/
theorem lightbox_state_invariant_witness :
    (∀ i, sOpenB.selectedImageIndex = some i → i < sOpenB.images.length)
    ∧ (sOpenB.images = [] → sOpenB.selectedImageIndex = none)
    ∧ (1 ≤ sOpenB.images.length →
        ∀ d : Direction, (navigateImage d sOpenB).isSome = true) :=
  lightbox_state_invariant sOpenB reach_sOpenB

/-- C6: in every reachable state, while the lightbox is open the keydown
handler maps Escape to closeImage, ArrowLeft to navigateImage prev,
ArrowRight to navigateImage next and ignores every other key; while it is
not open, every key leaves the state unchanged. -/
theorem keyboard_router_gated (s : GalleryState) (h : Reachable s) :
    (lightboxOpen s = true →
        handleKeyDown "Escape" s = some (closeImage s)
      ∧ handleKeyDown "ArrowLeft" s = navigateImage .prev s
      ∧ handleKeyDown "ArrowRight" s = navigateImage .next s
      ∧ ∀ key, key ≠ "Escape" → key ≠ "ArrowLeft" → key ≠ "ArrowRight" →
          handleKeyDown key s = some s)
    ∧ (lightboxOpen s = false → ∀ key, handleKeyDown key s = some s) := by
  obtain ⟨_, _, htruthy⟩ := reachable_inv s h
  constructor
  · intro hopen
    have ht : truthyOpt s.selectedImage = true := by
      have h2 := hopen
      simp only [lightboxOpen, Bool.and_eq_true] at h2
      exact h2.1
    have htf : ¬ truthyOpt s.selectedImage = false := by
      rw [ht]; intro hc; cases hc
    refine ⟨?_, ?_, ?_, ?_⟩
    · unfold handleKeyDown
      rw [if_neg htf, if_pos rfl]
    · unfold handleKeyDown
      rw [if_neg htf, if_neg (by decide), if_pos rfl]
    · unfold handleKeyDown
      rw [if_neg htf, if_neg (by decide), if_neg (by decide), if_pos rfl]
    · intro key k1 k2 k3
      unfold handleKeyDown
      rw [if_neg htf, if_neg k1, if_neg k2, if_neg k3]
  · intro hclosed key
    by_cases ht : truthyOpt s.selectedImage = true
    · have hsome := htruthy ht
      have hco : lightboxOpen s = true := by
        simp [lightboxOpen, ht, hsome]
      rw [hco] at hclosed
      cases hclosed
    · have htf : truthyOpt s.selectedImage = false := by
        cases hx : truthyOpt s.selectedImage
        · rfl
        · exact absurd hx ht
      unfold handleKeyDown
      rw [if_pos htf]

/-- Witness for C6 at the reachable state with records A, B, C and
selected index 1. -/
theorem keyboard_router_gated_witness :
    (lightboxOpen sOpenB = true →
        handleKeyDown "Escape" sOpenB = some (closeImage sOpenB)
      ∧ handleKeyDown "ArrowLeft" sOpenB = navigateImage .prev sOpenB
      ∧ handleKeyDown "ArrowRight" sOpenB = navigateImage .next sOpenB
      ∧ ∀ key, key ≠ "Escape" → key ≠ "ArrowLeft" → key ≠ "ArrowRight" →
          handleKeyDown key sOpenB = some sOpenB)
    ∧ (lightboxOpen sOpenB = false →
        ∀ key, handleKeyDown key sOpenB = some sOpenB) :=
  keyboard_router_gated sOpenB reach_sOpenB

/-- C2 counterexample: unmounting while the fetch is in flight aborts
nothing (the fetch stays pending, because the mount effect returns no
cleanup), and when the fetch then resolves, the continuation still
applies its update to the component state after teardown, changing it. -/
theorem unmount_discards_nothing_counterexample :
    (lifeStep .unmount
        { st := initialState, mounted := true, fetchPending := true }).mounted
      = false
    ∧ (lifeStep .unmount
        { st := initialState, mounted := true, fetchPending := true }).fetchPending
      = true
    ∧ (lifeStep (.resolve (.resolved 200 "OK" (.ok [imgA])))
        (lifeStep .unmount
          { st := initialState, mounted := true, fetchPending := true })).st.images
      = [imgA]
    ∧ (lifeStep (.resolve (.resolved 200 "OK" (.ok [imgA])))
        (lifeStep .unmount
          { st := initialState, mounted := true, fetchPending := true })).st
      ≠ initialState := by
  refine ⟨rfl, rfl, by decide, by decide⟩

/-- C2 amended: the component performs no cancellation.  Unmounting runs
no cleanup and does not abort the in-flight fetch, and when the fetch
later resolves the continuation applies exactly the same state update as
when mounted; any discarding after teardown happens outside this
component. -/
theorem unmount_no_abort_resolution_applies (l : Lifecycle) (o : FetchOutcome)
    (hp : l.fetchPending = true) :
    (lifeStep .unmount l).mounted = false
    ∧ (lifeStep .unmount l).fetchPending = true
    ∧ (lifeStep .unmount l).st = l.st
    ∧ (lifeStep (.resolve o) (lifeStep .unmount l)).st = fetchImagesRun o l.st := by
  refine ⟨rfl, hp, rfl, ?_⟩
  simp [lifeStep, hp]

/-- Witness for the amended C2 at a freshly mounted component with a
pending fetch that rejects after unmount. -/
theorem unmount_no_abort_resolution_applies_witness :
    ({ st := initialState, mounted := true, fetchPending := true } :
        Lifecycle).fetchPending = true
    ∧ ((lifeStep .unmount
          { st := initialState, mounted := true, fetchPending := true }).mounted
        = false
      ∧ (lifeStep .unmount
          { st := initialState, mounted := true, fetchPending := true }).fetchPending
        = true
      ∧ (lifeStep .unmount
          { st := initialState, mounted := true, fetchPending := true }).st
        = initialState
      ∧ (lifeStep (.resolve (.rejected .nonError))
          (lifeStep .unmount
            { st := initialState, mounted := true, fetchPending := true })).st
        = fetchImagesRun (.rejected .nonError) initialState) :=
  ⟨rfl, unmount_no_abort_resolution_applies
    { st := initialState, mounted := true, fetchPending := true }
    (.rejected .nonError) rfl⟩

/-- C3: a truthy takenDate always yields the Taken date line, even with a
truthy createdTime also present; with takenDate falsy, a truthy
createdTime yields the Uploaded line; with both falsy no date line
renders; and both the grid tile and the lightbox overlay carry exactly
this date line for the rendered record. -/
theorem date_label_precedence (localeFormat : String → String)
    (takenDate createdTime : Option String) (i n : Nat) (src : String)
    (img : GalleryImage) :
    (truthyOpt takenDate = true →
        dateLabel localeFormat takenDate createdTime
          = .taken (formatDate localeFormat takenDate)
      ∧ dateLineText (dateLabel localeFormat takenDate createdTime)
          = some ("Taken " ++ formatDate localeFormat takenDate))
    ∧ (truthyOpt takenDate = false → truthyOpt createdTime = true →
        dateLabel localeFormat takenDate createdTime
          = .uploaded (formatDate localeFormat createdTime)
      ∧ dateLineText (dateLabel localeFormat takenDate createdTime)
          = some ("Uploaded " ++ formatDate localeFormat createdTime))
    ∧ (truthyOpt takenDate = false → truthyOpt createdTime = false →
        dateLineText (dateLabel localeFormat takenDate createdTime) = none)
    ∧ (renderTile localeFormat i img).dateLine
        = dateLabel localeFormat img.takenDate img.createdTime
    ∧ (renderOverlay localeFormat src i n img).dateLine
        = dateLabel localeFormat img.takenDate img.createdTime := by
  refine ⟨?_, ?_, ?_, rfl, rfl⟩
  · intro ht
    constructor <;> simp [dateLabel, dateLineText, ht]
  · intro ht hc
    constructor <;> simp [dateLabel, dateLineText, ht, hc]
  · intro ht hc
    simp [dateLabel, dateLineText, ht, hc]

/-- Witness for C3 at a record carrying both a takenDate and a
createdTime: the Taken line wins. -/
theorem date_label_precedence_witness :
    truthyOpt imgB.takenDate = true
    ∧ dateLineText
        (dateLabel (fun x => x) imgB.takenDate imgB.createdTime)
      = some ("Taken " ++ formatDate (fun x => x) imgB.takenDate) :=
  ⟨by decide,
   ((date_label_precedence (fun x => x) imgB.takenDate imgB.createdTime 0 1
      "" imgB).1 (by decide)).2⟩

/-- C4: a fetch that resolves with a non-2xx status leaves the Loading
state with the error message interpolating the status and status text,
and the error panel renders exactly that message. -/
theorem fetch_nonok_error_rendered (localeFormat : String → String)
    (s : GalleryState) (status : Nat) (statusText : String)
    (jsonResult : Except ThrownValue (List GalleryImage))
    (hl : s.loading = true) (hbad : responseOk status = false) :
    (fetchImagesRun (.resolved status statusText jsonResult) s).error
      = some ("Failed to fetch images: " ++ toString status ++ " "
          ++ statusText)
    ∧ (fetchImagesRun (.resolved status statusText jsonResult) s).loading
      = false
    ∧ render localeFormat (fetchImagesRun (.resolved status statusText jsonResult) s)
      = some (.errorView ("Failed to fetch images: " ++ toString status
          ++ " " ++ statusText)) := by
  have hrun : fetchImagesRun (.resolved status statusText jsonResult) s
      = { s with loading := false,
                 error := some ("Failed to fetch images: " ++ toString status ++ " " ++ statusText) } := by
    simp only [fetchImagesRun, if_pos hbad]
  have hne : ("Failed to fetch images: " ++ toString status ++ " "
      ++ statusText) ≠ "" :=
    string_ne_empty_of_append _ _ _ _ (by decide)
  refine ⟨by rw [hrun], by rw [hrun], ?_⟩
  rw [hrun]
  simp [render, truthyOpt, truthyStr, hne]

/-- Witness for C4: status 500 with text Internal Server Error yields the
verbatim message of the specification example. -/
theorem fetch_nonok_error_rendered_witness :
    initialState.loading = true
    ∧ responseOk 500 = false
    ∧ (fetchImagesRun (.resolved 500 "Internal Server Error" (.ok []))
        initialState).error
      = some "Failed to fetch images: 500 Internal Server Error"
    ∧ render (fun x => x)
        (fetchImagesRun (.resolved 500 "Internal Server Error" (.ok []))
          initialState)
      = some (.errorView "Failed to fetch images: 500 Internal Server Error") := by
  have h := fetch_nonok_error_rendered (fun x => x) initialState 500
    "Internal Server Error" (.ok []) rfl (by decide)
  refine ⟨rfl, by decide, ?_, ?_⟩
  · rw [h.1]; decide
  · rw [h.2.2]; decide

/-- C7: with loading finished, no error and an empty loaded list, the
component renders the empty-state panel with its fixed heading and body,
and no tiles. -/
theorem loaded_empty_renders_empty_panel (localeFormat : String → String)
    (s : GalleryState) (hl : s.loading = false) (he : s.error = none)
    (him : s.images = []) :
    render localeFormat s
      = some (.emptyView "No Images Found"
          "There are no images available in the gallery. Please check your Google Drive folder.")
    ∧ ∀ view, render localeFormat s = some view → tilesOf view = [] := by
  have hr : render localeFormat s
      = some (.emptyView "No Images Found"
          "There are no images available in the gallery. Please check your Google Drive folder.") := by
    simp [render, hl, he, him, truthyOpt]
  refine ⟨hr, ?_⟩
  intro view hv
  rw [hr] at hv
  injection hv with hv
  rw [← hv]
  rfl

/-- Witness for C7 at the state reached when the endpoint returns the
empty array. -/
theorem loaded_empty_renders_empty_panel_witness :
    (sEmpty.loading = false ∧ sEmpty.error = none ∧ sEmpty.images = [])
    ∧ (render (fun x => x) sEmpty
        = some (.emptyView "No Images Found"
            "There are no images available in the gallery. Please check your Google Drive folder.")
      ∧ ∀ view, render (fun x => x) sEmpty = some view → tilesOf view = []) :=
  ⟨⟨rfl, rfl, rfl⟩,
   loaded_empty_renders_empty_panel (fun x => x) sEmpty rfl rfl rfl⟩

/-- C8: clicking the tile at position i of the rendered grid opens the
lightbox at index i, and for a record with a truthy src the overlay
renders with the counter text interpolating i+1 and the list length. -/
theorem tile_click_opens_with_counter (localeFormat : String → String)
    (s : GalleryState) (i : Nat) (img : GalleryImage)
    (hl : s.loading = false) (he : truthyOpt s.error = false)
    (hg : s.images.get? i = some img) (hsrc : jsOrStr img.src "" ≠ "") :
    (openImage (jsOrStr img.src "") i s).selectedImageIndex = some i
    ∧ ∃ view overlay,
        render localeFormat (openImage (jsOrStr img.src "") i s) = some view
        ∧ overlayOf view = some overlay
        ∧ overlay.counter = toString (i + 1) ++ " / " ++ toString s.images.length := by
  have hlen : s.images.length ≠ 0 := by
    rcases List.get?_eq_some.mp hg with ⟨hi, _⟩
    omega
  refine ⟨rfl, ?_⟩
  have hov : renderOverlayOpt localeFormat (openImage (jsOrStr img.src "") i s)
      = some (some (renderOverlay localeFormat (jsOrStr img.src "") i
          s.images.length img)) := by
    simp only [renderOverlayOpt, openImage]
    rw [if_neg hsrc]
    rw [show ({ s with selectedImage := some (jsOrStr img.src ""),
                       selectedImageIndex := some i } : GalleryState).images = s.images from rfl]
    rw [hg]
  have hr : render localeFormat (openImage (jsOrStr img.src "") i s)
      = some (.gridView
          ((openImage (jsOrStr img.src "") i s).images.enum.map
            fun p => renderTile localeFormat p.1 p.2)
          (some (renderOverlay localeFormat (jsOrStr img.src "") i
            s.images.length img))) := by
    simp only [render]
    rw [if_neg (by simp [openImage, hl]), if_neg (by simp [openImage, he]),
      if_neg (by simp [openImage, hlen]), hov]
    rfl
  exact ⟨_, _, hr, rfl, rfl⟩

/-- Witness for C8: with the three records A, B, C loaded, clicking the
second tile opens index 1 and the counter reads 2 of 3. -/
theorem tile_click_opens_with_counter_witness :
    (sLoaded.loading = false ∧ truthyOpt sLoaded.error = false
      ∧ sLoaded.images.get? 1 = some imgB ∧ jsOrStr imgB.src "" ≠ "")
    ∧ ((openImage (jsOrStr imgB.src "") 1 sLoaded).selectedImageIndex = some 1
      ∧ ∃ view overlay,
          render (fun x => x) (openImage (jsOrStr imgB.src "") 1 sLoaded)
            = some view
          ∧ overlayOf view = some overlay
          ∧ overlay.counter = "2 / 3") := by
  have h := tile_click_opens_with_counter (fun x => x) sLoaded 1 imgB rfl rfl
    (by decide) (by decide)
  refine ⟨⟨rfl, rfl, by decide, by decide⟩, h.1, ?_⟩
  obtain ⟨view, overlay, h1, h2, h3⟩ := h.2
  refine ⟨view, overlay, h1, h2, ?_⟩
  rw [h3]
  decide

/-- C9: only an Error instance surfaces its own message; any other thrown
value, whether the fetch promise rejects with it or the json parse throws
it, surfaces the fixed fallback text. -/
theorem non_error_throw_fallback (s : GalleryState) (m : String) :
    errMessage .nonError = "Failed to load gallery images"
    ∧ errMessage (.errorInstance m) = m
    ∧ (fetchImagesRun (.rejected .nonError) s).error
      = some "Failed to load gallery images"
    ∧ (fetchImagesRun (.rejected (.errorInstance m)) s).error = some m
    ∧ (fetchImagesRun (.resolved 200 "OK" (.error .nonError)) s).error
      = some "Failed to load gallery images" :=
  ⟨rfl, rfl, rfl, rfl, rfl⟩

/-- C10: clicking a tile whose record has an absent or empty src stores
the index but the empty src string, so the lightbox is effectively
closed: the overlay conditional fails, every key is ignored by the
keydown guard, and no rendered view carries an overlay. -/
theorem empty_src_click_stays_closed (localeFormat : String → String)
    (s : GalleryState) (i : Nat) (img : GalleryImage)
    (hg : s.images.get? i = some img)
    (hsrc : img.src = none ∨ img.src = some "") :
    (openImage (jsOrStr img.src "") i s).selectedImageIndex = some i
    ∧ (openImage (jsOrStr img.src "") i s).selectedImage = some ""
    ∧ lightboxOpen (openImage (jsOrStr img.src "") i s) = false
    ∧ (∀ key, handleKeyDown key (openImage (jsOrStr img.src "") i s)
        = some (openImage (jsOrStr img.src "") i s))
    ∧ (∀ view, render localeFormat (openImage (jsOrStr img.src "") i s)
        = some view → overlayOf view = none) := by
  have hempty : jsOrStr img.src "" = "" := by
    rcases hsrc with h | h <;> simp [jsOrStr, h]
  have hsel : (openImage (jsOrStr img.src "") i s).selectedImage = some "" := by
    rw [show (openImage (jsOrStr img.src "") i s).selectedImage
        = some (jsOrStr img.src "") from rfl, hempty]
  have htf : truthyOpt (openImage (jsOrStr img.src "") i s).selectedImage
      = false := by
    rw [hsel]; rfl
  refine ⟨rfl, hsel, ?_, ?_, ?_⟩
  · simp [lightboxOpen, htf]
  · intro key
    unfold handleKeyDown
    rw [if_pos htf]
  · intro view hv
    unfold render at hv
    split at hv
    · injection hv with hv; rw [← hv]; rfl
    · split at hv
      · injection hv with hv; rw [← hv]; rfl
      · split at hv
        · injection hv with hv; rw [← hv]; rfl
        · have hovl : renderOverlayOpt localeFormat
              (openImage (jsOrStr img.src "") i s) = some none := by
            simp [renderOverlayOpt, openImage, hempty]
          rw [hovl] at hv
          injection hv with hv
          rw [← hv]
          rfl

/-- Witness for C10 at the reachable state whose second record has no
src field. -/
theorem empty_src_click_stays_closed_witness :
    (sLoadedNoSrc.images.get? 1 = some imgNoSrc ∧ imgNoSrc.src = none)
    ∧ ((openImage (jsOrStr imgNoSrc.src "") 1 sLoadedNoSrc).selectedImageIndex
        = some 1
      ∧ (openImage (jsOrStr imgNoSrc.src "") 1 sLoadedNoSrc).selectedImage
        = some ""
      ∧ lightboxOpen (openImage (jsOrStr imgNoSrc.src "") 1 sLoadedNoSrc)
        = false
      ∧ (∀ key, handleKeyDown key
            (openImage (jsOrStr imgNoSrc.src "") 1 sLoadedNoSrc)
          = some (openImage (jsOrStr imgNoSrc.src "") 1 sLoadedNoSrc))
      ∧ (∀ view, render (fun x => x)
            (openImage (jsOrStr imgNoSrc.src "") 1 sLoadedNoSrc)
          = some view → overlayOf view = none)) :=
  ⟨⟨by decide, rfl⟩,
   empty_src_click_stays_closed (fun x => x) sLoadedNoSrc 1 imgNoSrc
     (by decide) (Or.inl rfl)⟩

end Zymome
